import Mathlib

/-!
Verification of the presentation orchestration state machine of the
ppt-voice-agent repository, shallowly embedded from `src/agent.py`
(the active implementation; `src/agent_temp.py` is a near-duplicate
variant that differs only in tuning constants such as the retry count).

The embedding models:
  * the module-level globals (`current_slide_index`, `total_slides`,
    `slides_data`, `room_context`) as an `AgentState` record;
  * the navigation tools `next_slide`, `previous_slide`, `goto_slide`
    and `update_slide_display` as pure functions returning the new
    state, the list of attempted display publications, and the status
    message (statuses are modelled as an inductive type mirroring the
    returned strings);
  * the automatic presentation loop of `entrypoint` (lines 242-313 of
    agent.py) as a fuel-indexed interpreter `driverLoopAux` that
    consumes an oracle describing the outcomes of the external calls
    (display publication success, narration attempt success/failure,
    the interrupted flag of a completed speech handle) and produces an
    event trace;
  * the closing message and transition to Q&A (lines 315-327) as
    `runPresentation`;
  * the `finally` teardown block (lines 336-359) as
    `entrypointFinalState`.

Machine integers do not arise: Python integers are unbounded, so slide
indices are `Int`.  Python list indexing (with its negative-index
wrap-around) is modelled by `pyGet`.  Timing sleeps are not modelled
except for the backoff sleeps between narration attempts, which appear
as events because the retry contract mentions them.
-/

/-- A slide record as stored in `slides_data`: the fields the
orchestration code reads via `slide.get`.  An absent `image_url`
is modelled by the empty string, matching the `slide.get("image_url", "")`
default and the falsiness test `if not image_url`. -/
structure Slide where
  slide_number : Int
  image_url : String
  extracted_text : String
  deriving DecidableEq, Repr

/-- The module-level globals of agent.py lines 24-28. -/
structure AgentState where
  current_slide_index : Int
  total_slides : Int
  slides_data : List Slide
  room_context : Option Unit
  deriving DecidableEq, Repr

/-- A payload passed to `set_attributes`: the display publication with
the slide url, the 1-indexed slide number and the total. -/
structure DisplayCall where
  url : String
  ordinal : Int
  total : Int
  deriving DecidableEq, Repr

/-- The status strings returned by the navigation tools, as an
inductive mirror of the literal messages in agent.py. -/
inductive NavStatus where
  | nowOnSlide (ordinal : Int) (total : Int) (contentHead : String)
  | alreadyLast
  | alreadyFirst
  | invalidSlideNumber (total : Int)
  deriving DecidableEq, Repr

/-- Python list indexing `l[i]`, including the negative-index
wrap-around, returning `none` where Python raises `IndexError`. -/
def pyGet (l : List Slide) (i : Int) : Option Slide :=
  if 0 ≤ i then l.get? i.toNat
  else if 0 ≤ i + l.length then (i + (l.length : Int)).toNat |> l.get?
  else none

/-- `update_slide_display` (agent.py lines 105-126).  `pubOk` is the
outcome of the external `set_attributes` call; the surrounding
`try/except` only logs a failure.  Returns the list of attempted
display publications and whether the display actually updated. -/
def update_slide_display (pubOk : Bool) (s : AgentState) : List DisplayCall × Bool :=
  match s.room_context with
  | none => ([], false)
  | some _ =>
    match pyGet s.slides_data s.current_slide_index with
    | none => ([], false)
    | some slide =>
      let payload : DisplayCall :=
        ⟨slide.image_url, s.current_slide_index + 1, s.total_slides⟩
      if pubOk then ([payload], true) else ([payload], false)

/-- Text of the slide at the current index, used to build the status
message (`slide.get("extracted_text", "")`). -/
def currentContent (s : AgentState) : String :=
  match pyGet s.slides_data s.current_slide_index with
  | some slide => slide.extracted_text
  | none => ""

/-- `next_slide` (agent.py lines 34-53): guarded increment, display
refresh, status message. -/
def next_slide (pubOk : Bool) (s : AgentState) : AgentState × List DisplayCall × NavStatus :=
  if s.current_slide_index < s.total_slides - 1 then
    let s2 : AgentState := { s with current_slide_index := s.current_slide_index + 1 }
    let calls := (update_slide_display pubOk s2).1
    (s2, calls,
      NavStatus.nowOnSlide (s2.current_slide_index + 1) s2.total_slides
        ((currentContent s2).take 100))
  else
    (s, [], NavStatus.alreadyLast)

/-- `previous_slide` (agent.py lines 56-75): guarded decrement. -/
def previous_slide (pubOk : Bool) (s : AgentState) : AgentState × List DisplayCall × NavStatus :=
  if s.current_slide_index > 0 then
    let s2 : AgentState := { s with current_slide_index := s.current_slide_index - 1 }
    let calls := (update_slide_display pubOk s2).1
    (s2, calls,
      NavStatus.nowOnSlide (s2.current_slide_index + 1) s2.total_slides
        ((currentContent s2).take 100))
  else
    (s, [], NavStatus.alreadyFirst)

/-- `goto_slide` (agent.py lines 78-102): validated absolute jump. -/
def goto_slide (pubOk : Bool) (slide_number : Int) (s : AgentState) :
    AgentState × List DisplayCall × NavStatus :=
  if 1 ≤ slide_number ∧ slide_number ≤ s.total_slides then
    let s2 : AgentState := { s with current_slide_index := slide_number - 1 }
    let calls := (update_slide_display pubOk s2).1
    (s2, calls,
      NavStatus.nowOnSlide slide_number s2.total_slides
        ((currentContent s2).take 100))
  else
    (s, [], NavStatus.invalidSlideNumber s.total_slides)

/-- The statement `current_slide_index += 1` executed by the automatic
loop after a slide (agent.py lines 250, 265, 308, 312): a direct,
uncapped increment of the cursor. -/
def driverAdvanceStep (s : AgentState) : AgentState :=
  { s with current_slide_index := s.current_slide_index + 1 }

/-- Outcome of one narration attempt (`generate_reply` followed by
`wait_for_playout`): either playout completes (with the handle's
`interrupted` flag) or the attempt raises/times out. -/
inductive AttemptOutcome where
  | completes (interrupted : Bool)
  | fails
  deriving DecidableEq, Repr

/-- Per-slide oracle for the external effects of one loop iteration:
whether the in-loop `set_attributes` succeeds, and the outcome of each
narration attempt. -/
structure IterOracle where
  publishOk : Bool
  att : Nat → AttemptOutcome

/-- Observable events of the automatic presentation loop. -/
inductive Event where
  | displayAttempt (url : String) (ordinal : Int) (total : Int)
  | skipNoImage (idx : Int)
  | publishFailSkip (idx : Int)
  | narrationAct (idx : Int) (attempt : Nat)
  | backoffSleep (idx : Int) (attempt : Nat)
  | slideCompleted (idx : Int)
  | slideFailedSkip (idx : Int)
  | interruptedStop (idx : Int)
  | closingNarration
  deriving DecidableEq, Repr

/-- Result of the retry loop: the last assigned speech handle either
completed (with its interrupted flag) or the final attempt re-raised. -/
inductive RetryResult where
  | success (interrupted : Bool)
  | raised
  deriving DecidableEq, Repr

/-- The retry loop of agent.py lines 275-295:
`for attempt in range(max_retries)` where a failing attempt re-raises
when `attempt == max_retries - 1` and otherwise sleeps and retries.
`attempt` is the Python loop variable, `remaining` counts the loop
iterations still available (initially `max_retries`). -/
def retryLoop (idx : Int) (att : Nat → AttemptOutcome) :
    Nat → Nat → List Event × RetryResult
  | _, 0 => ([], RetryResult.raised)
  | attempt, r + 1 =>
    match att attempt with
    | AttemptOutcome.completes intr =>
      ([Event.narrationAct idx attempt], RetryResult.success intr)
    | AttemptOutcome.fails =>
      if r = 0 then
        ([Event.narrationAct idx attempt], RetryResult.raised)
      else
        let rest := retryLoop idx att (attempt + 1) r
        (Event.narrationAct idx attempt :: Event.backoffSleep idx attempt :: rest.1,
         rest.2)

/-- The literal `max_retries = 3` of agent.py line 275
(agent_temp.py line 361 uses 2 instead). -/
def max_retries : Nat := 3

/-- Result of running the automatic loop: final globals, event trace,
and whether the loop finished normally (`ok = false` models an
exception escaping the loop body, or exhausted fuel). -/
structure LoopResult where
  state : AgentState
  events : List Event
  ok : Bool
  deriving DecidableEq, Repr

/-- The automatic presentation loop, agent.py lines 242-313.  One fuel
unit per iteration; the oracle is indexed by the slide index read at
the top of the iteration. -/
def driverLoopAux (oracle : Int → IterOracle) : AgentState → Nat → LoopResult
  | s, 0 =>
    ⟨s, [], if s.current_slide_index < s.total_slides then false else true⟩
  | s, fuel + 1 =>
    if s.current_slide_index < s.total_slides then
      match pyGet s.slides_data s.current_slide_index with
      | none => ⟨s, [], false⟩
      | some slide =>
        if slide.image_url = "" then
          let r := driverLoopAux oracle (driverAdvanceStep s) fuel
          ⟨r.state, Event.skipNoImage s.current_slide_index :: r.events, r.ok⟩
        else
          let dc := Event.displayAttempt slide.image_url slide.slide_number s.total_slides
          if (oracle s.current_slide_index).publishOk then
            let p := retryLoop s.current_slide_index (oracle s.current_slide_index).att 0 max_retries
            match p.2 with
            | RetryResult.raised =>
              let r := driverLoopAux oracle (driverAdvanceStep s) fuel
              ⟨r.state,
               dc :: p.1 ++ Event.slideFailedSkip s.current_slide_index :: r.events,
               r.ok⟩
            | RetryResult.success intr =>
              if intr then
                ⟨s, dc :: p.1 ++ [Event.interruptedStop s.current_slide_index], true⟩
              else
                let r := driverLoopAux oracle (driverAdvanceStep s) fuel
                ⟨r.state,
                 dc :: p.1 ++ Event.slideCompleted s.current_slide_index :: r.events,
                 r.ok⟩
          else
            let r := driverLoopAux oracle (driverAdvanceStep s) fuel
            ⟨r.state, dc :: Event.publishFailSkip s.current_slide_index :: r.events, r.ok⟩
    else ⟨s, [], true⟩

/-- Session phase after the presentation sequence: `idleQA` models
reaching `keep_alive` (the interactive Q&A mode); `aborted` models an
exception escaping the loop. -/
inductive Phase where
  | idleQA
  | aborted
  deriving DecidableEq, Repr

/-- The presentation sequence plus the final message block of agent.py
lines 242-327: run the loop; if the cursor reached past the deck, emit
exactly one closing narration; in both normal exits enter Q&A. -/
def runPresentation (oracle : Int → IterOracle) (fuel : Nat) (s : AgentState) :
    AgentState × List Event × Phase :=
  let r := driverLoopAux oracle s fuel
  if r.ok then
    if r.state.total_slides ≤ r.state.current_slide_index then
      (r.state, r.events ++ [Event.closingNarration], Phase.idleQA)
    else
      (r.state, r.events, Phase.idleQA)
  else
    (r.state, r.events, Phase.aborted)

/-- The globals after a successful deck load (agent.py lines 175-178),
with `room_context` already set at entry (line 139). -/
def initState (slides : List Slide) : AgentState :=
  ⟨0, (slides.length : Int), slides, some ()⟩

/-- The loop-termination test turned around: the cursor is past the
deck when `current_slide_index < total_slides` fails. -/
def pastEnd (s : AgentState) : Prop :=
  s.total_slides ≤ s.current_slide_index

instance (s : AgentState) : Decidable (pastEnd s) := by
  unfold pastEnd
  infer_instance

/-- The sentinel no-session values of the globals (agent.py lines 24-28
and 353-357). -/
def sentinelState : AgentState :=
  ⟨0, 0, [], none⟩

/-- The unconditional global reset at the end of the `finally` block
(agent.py lines 353-357). -/
def resetGlobals (_s : AgentState) : AgentState :=
  ⟨0, 0, [], none⟩

/-- The `finally` block (agent.py lines 336-359): `session.aclose()`
and `ctx.room.disconnect()` are each wrapped in their own
`try/except` that only logs, so neither outcome (`closeOk`,
`disconnectOk`) can divert control before the global reset. -/
def teardownBlock (_closeOk : Bool) (_disconnectOk : Bool) (s : AgentState) : AgentState :=
  resetGlobals s

/-- The distinct control-flow paths on which `entrypoint` can reach its
`finally` block. -/
inductive ExitPath where
  | startupNoPresentationId
  | startupNoSlides
  | normalCompletion
  | cancelled
  | unexpectedError
  deriving DecidableEq, Repr

/-- The globals when `entrypoint` returns, as a function of the path
taken: each branch flows into `teardownBlock`.  `midState` is the
arbitrary global state at the moment of a cancellation or unexpected
exception. -/
def entrypointFinalState (path : ExitPath) (slides : List Slide)
    (oracle : Int → IterOracle) (fuel : Nat) (midState : AgentState)
    (closeOk disconnectOk : Bool) : AgentState :=
  let bodyEnd : AgentState :=
    match path with
    | ExitPath.startupNoPresentationId => ⟨0, 0, [], some ()⟩
    | ExitPath.startupNoSlides => ⟨0, 0, [], some ()⟩
    | ExitPath.normalCompletion => (runPresentation oracle fuel (initState slides)).1
    | ExitPath.cancelled => midState
    | ExitPath.unexpectedError => midState
  teardownBlock closeOk disconnectOk bodyEnd

/-- Number of narration acts (`generate_reply` calls) in a trace. -/
def countNarrationActs (evs : List Event) : Nat :=
  List.countP
    (fun e => match e with | Event.narrationAct _ _ => true | _ => false) evs

/-- Number of narration acts for a given slide index. -/
def narrationActsFor (i : Int) (evs : List Event) : Nat :=
  List.countP
    (fun e => match e with | Event.narrationAct j _ => j == i | _ => false) evs

/-- Number of backoff sleeps in a trace. -/
def countBackoffs (evs : List Event) : Nat :=
  List.countP
    (fun e => match e with | Event.backoffSleep _ _ => true | _ => false) evs

/-- Number of closing narration acts in a trace. -/
def countClosing (evs : List Event) : Nat :=
  List.countP
    (fun e => match e with | Event.closingNarration => true | _ => false) evs

/-- Index of the first slide narrated in a trace, if any. -/
def firstNarratedIndex (evs : List Event) : Option Int :=
  List.findSome?
    (fun e => match e with | Event.narrationAct j _ => some j | _ => none) evs

/-- Iterated `next_slide` (keeping only the state), for the advance
properties. -/
def advanceIter : Nat → AgentState → AgentState
  | 0, s => s
  | n + 1, s => advanceIter n (next_slide true s).1

/-- Concrete deck builders and oracles used as test inputs. -/
def mkSlide (n : Int) (url : String) (txt : String) : Slide :=
  ⟨n, url, txt⟩

def deck1 : List Slide := [mkSlide 1 "u1" "t1"]

def deck2 : List Slide := [mkSlide 1 "u1" "t1", mkSlide 2 "u2" "t2"]

def deck3gap : List Slide :=
  [mkSlide 1 "u1" "t1", mkSlide 2 "" "t2", mkSlide 3 "u3" "t3"]

def deck5 : List Slide :=
  [mkSlide 1 "u1" "t1", mkSlide 2 "u2" "t2", mkSlide 3 "u3" "t3",
   mkSlide 4 "u4" "t4", mkSlide 5 "u5" "t5"]

/-- Oracle: publishes succeed, every narration attempt completes
without interruption. -/
def happyOracle : Int → IterOracle :=
  fun _ => ⟨true, fun _ => AttemptOutcome.completes false⟩

/-- Oracle: publishes succeed, every narration attempt fails/times out. -/
def failingOracle : Int → IterOracle :=
  fun _ => ⟨true, fun _ => AttemptOutcome.fails⟩

/-- Oracle: every in-loop display publication fails. -/
def noPublishOracle : Int → IterOracle :=
  fun _ => ⟨false, fun _ => AttemptOutcome.completes false⟩

/-- Oracle: narration completes but the speech handle reports the user
interrupted it. -/
def interruptOracle : Int → IterOracle :=
  fun _ => ⟨true, fun _ => AttemptOutcome.completes true⟩

/-! ## Helper lemmas -/

/-- The state component of `next_slide` is a capped increment. -/
theorem next_slide_state (pubOk : Bool) (s : AgentState) :
    (next_slide pubOk s).1 =
      if s.current_slide_index < s.total_slides - 1 then driverAdvanceStep s else s := by
  unfold next_slide driverAdvanceStep
  split <;> rfl

/-- The state component of `previous_slide` is a capped decrement. -/
theorem previous_slide_state (pubOk : Bool) (s : AgentState) :
    (previous_slide pubOk s).1 =
      if s.current_slide_index > 0 then
        { s with current_slide_index := s.current_slide_index - 1 }
      else s := by
  unfold previous_slide
  split <;> rfl

/-- A valid jump sets the cursor to the 0-indexed target. -/
theorem goto_slide_valid (pubOk : Bool) (k : Int) (s : AgentState)
    (h1 : 1 ≤ k) (h2 : k ≤ s.total_slides) :
    (goto_slide pubOk k s).1 = { s with current_slide_index := k - 1 } := by
  unfold goto_slide
  rw [if_pos ⟨h1, h2⟩]

/-- An out-of-range jump is a complete no-op returning the
out-of-range status. -/
theorem goto_slide_invalid (pubOk : Bool) (k : Int) (s : AgentState)
    (h : ¬ (1 ≤ k ∧ k ≤ s.total_slides)) :
    goto_slide pubOk k s = (s, [], NavStatus.invalidSlideNumber s.total_slides) := by
  unfold goto_slide
  rw [if_neg h]

/-- Cursor evolution of iterated `next_slide`: the index climbs by one
per call and saturates at `total_slides - 1`. -/
theorem advanceIter_spec (n : Nat) :
    ∀ s : AgentState, 0 ≤ s.current_slide_index →
      s.current_slide_index ≤ s.total_slides - 1 →
        (advanceIter n s).current_slide_index =
            min (s.current_slide_index + (n : Int)) (s.total_slides - 1) ∧
          (advanceIter n s).total_slides = s.total_slides ∧
          (advanceIter n s).slides_data = s.slides_data := by
  induction n with
  | zero =>
    intro s h0 h1
    refine ⟨?_, rfl, rfl⟩
    show s.current_slide_index = min (s.current_slide_index + ((0 : Nat) : Int)) (s.total_slides - 1)
    push_cast
    omega
  | succ m ih =>
    intro s h0 h1
    simp only [advanceIter]
    rw [next_slide_state]
    by_cases hlt : s.current_slide_index < s.total_slides - 1
    · rw [if_pos hlt]
      obtain ⟨ha, hb, hc⟩ := ih (driverAdvanceStep s)
        (by simp [driverAdvanceStep]; omega) (by simp [driverAdvanceStep]; omega)
      refine ⟨?_, ?_, ?_⟩
      · rw [ha]
        simp only [driverAdvanceStep]
        push_cast
        omega
      · rw [hb]
        rfl
      · rw [hc]
        rfl
    · rw [if_neg hlt]
      obtain ⟨ha, hb, hc⟩ := ih s h0 h1
      refine ⟨?_, ?_, ?_⟩
      · rw [ha]
        push_cast
        omega
      · rw [hb]
      · rw [hc]

/-! ## Claim theorems -/

/-- C1, counterexample: in the reachable driver state of a one-slide
deck after the slide completed uninterrupted (index 0, total 1), the
driver's per-slide advance step (`current_slide_index += 1`, agent.py
line 308) is not equal to the state effect of the Controller's
`advance()` (`next_slide`): the former moves the cursor past the end,
the latter is a no-op capped at the last slide.  The loop writes the
cursor directly rather than calling `advance()`. -/
theorem c1_counterexample :
    driverAdvanceStep (initState deck1) ≠ (next_slide true (initState deck1)).1 := by
  decide

/-- C1, amended: the driver's advance step is a direct uncapped
increment of the cursor, not a call to `advance()`.  It coincides with
the state effect of `advance()` exactly on states strictly before the
last slide, and differs from it at the last slide, where `advance()`
is a no-op and the driver's step moves the cursor to the past-end
state. -/
theorem c1_amended (pubOk : Bool) (s : AgentState) :
    (s.current_slide_index < s.total_slides - 1 →
      driverAdvanceStep s = (next_slide pubOk s).1) ∧
    (s.current_slide_index = s.total_slides - 1 →
      driverAdvanceStep s ≠ (next_slide pubOk s).1) := by
  constructor
  · intro h
    rw [next_slide_state, if_pos h]
  · intro h heq
    rw [next_slide_state, if_neg (by omega)] at heq
    have : (driverAdvanceStep s).current_slide_index = s.current_slide_index := by
      rw [heq]
    simp only [driverAdvanceStep] at this
    omega

/-- C1 amended, witness at concrete states: agreement strictly before
the last slide (two-slide deck at index 0) and disagreement at the
last slide (one-slide deck at index 0). -/
theorem c1_amended_witness :
    driverAdvanceStep (initState deck2) = (next_slide true (initState deck2)).1 ∧
      driverAdvanceStep (initState deck1) ≠ (next_slide true (initState deck1)).1 :=
  ⟨(c1_amended true (initState deck2)).1 (by decide),
   (c1_amended true (initState deck1)).2 (by decide)⟩

/-- C4, counterexample: for the two-slide deck, `advance()` called
N-1 = 1 time from index 0 brings the cursor to index 1 — the last
slide — which is not the terminal past-end state (the loop guard
`current_slide_index < total_slides` is still true there).
`advance()` saturates at N-1 and never reaches past-end. -/
theorem c4_counterexample :
    (advanceIter 1 (initState deck2)).current_slide_index = 1 ∧
      ¬ pastEnd (advanceIter 1 (initState deck2)) := by
  decide

/-- C4, amended: for every deck of size N ≥ 1 the starting position is
index 0, and calling `advance()` N-1 times brings the position to
index N-1, the last slide — not the past-end state, which `advance()`
can never reach; one further `advance()` call is a no-op leaving the
position unchanged. -/
theorem c4_amended (slides : List Slide) (hN : 1 ≤ slides.length) :
    (initState slides).current_slide_index = 0 ∧
    (advanceIter (slides.length - 1) (initState slides)).current_slide_index =
      (slides.length : Int) - 1 ∧
    ¬ pastEnd (advanceIter (slides.length - 1) (initState slides)) ∧
    (next_slide true (advanceIter (slides.length - 1) (initState slides))).1 =
      advanceIter (slides.length - 1) (initState slides) := by
  have hspec := advanceIter_spec (slides.length - 1) (initState slides)
    (by simp [initState]) (by simp [initState]; omega)
  have hidx : (advanceIter (slides.length - 1) (initState slides)).current_slide_index =
      (slides.length : Int) - 1 := by
    rw [hspec.1]
    simp only [initState]
    omega
  have htot : (advanceIter (slides.length - 1) (initState slides)).total_slides =
      (slides.length : Int) := by
    rw [hspec.2.1]
    rfl
  refine ⟨rfl, hidx, ?_, ?_⟩
  · unfold pastEnd
    rw [hidx, htot]
    omega
  · rw [next_slide_state, if_neg (by rw [hidx, htot]; omega)]

/-- C4 amended, witness: the two-slide deck. -/
theorem c4_amended_witness :
    (initState deck2).current_slide_index = 0 ∧
    (advanceIter (deck2.length - 1) (initState deck2)).current_slide_index =
      (deck2.length : Int) - 1 ∧
    ¬ pastEnd (advanceIter (deck2.length - 1) (initState deck2)) ∧
    (next_slide true (advanceIter (deck2.length - 1) (initState deck2))).1 =
      advanceIter (deck2.length - 1) (initState deck2) :=
  c4_amended deck2 (by decide)

/-- C5: `jump(k)` (`goto_slide`) validates `1 ≤ k ≤ N`.  Outside that
range it leaves the state unchanged, attempts no display publication,
and returns an out-of-range status; inside it sets the cursor to
`k - 1`. -/
theorem c5_jump_validation (pubOk : Bool) (k : Int) (s : AgentState) :
    ((k < 1 ∨ s.total_slides < k) →
      goto_slide pubOk k s = (s, [], NavStatus.invalidSlideNumber s.total_slides)) ∧
    (1 ≤ k → k ≤ s.total_slides →
      (goto_slide pubOk k s).1 = { s with current_slide_index := k - 1 }) := by
  constructor
  · intro h
    exact goto_slide_invalid pubOk k s (by omega)
  · intro h1 h2
    exact goto_slide_valid pubOk k s h1 h2

/-- C5, witness: a five-slide deck; jump(9) is rejected without any
state change and jump(4) lands on index 3. -/
theorem c5_jump_validation_witness :
    goto_slide true 9 (initState deck5) =
      (initState deck5, [], NavStatus.invalidSlideNumber 5) ∧
    (goto_slide true 4 (initState deck5)).1 =
      { initState deck5 with current_slide_index := 3 } :=
  ⟨by
    have := (c5_jump_validation true 9 (initState deck5)).1 (by decide)
    simpa [initState, deck5] using this,
   (c5_jump_validation true 4 (initState deck5)).2 (by decide) (by decide)⟩

/-- C9: on every exit path of a session — startup failure (missing
presentation id or empty deck), normal completion, cancellation, or an
unexpected exception mid-loop — the `finally` teardown runs and resets
all four process-wide globals (position index, deck data, slide total,
room context) to the no-session sentinel before `entrypoint` returns,
regardless of whether closing the session or disconnecting fails. -/
theorem c9_teardown_reset (path : ExitPath) (slides : List Slide)
    (oracle : Int → IterOracle) (fuel : Nat) (midState : AgentState)
    (closeOk disconnectOk : Bool) :
    entrypointFinalState path slides oracle fuel midState closeOk disconnectOk =
      sentinelState := by
  cases path <;> rfl

/-- C10: with no deck loaded (`total_slides = 0`, index 0), each of
the three navigation commands is a total no-op: state unchanged, no
display publication attempted, and a boundary or out-of-range status
returned. -/
theorem c10_no_deck_noop (pubOk : Bool) (k : Int) (s : AgentState)
    (htot : s.total_slides = 0) (hidx : s.current_slide_index = 0) :
    next_slide pubOk s = (s, [], NavStatus.alreadyLast) ∧
    previous_slide pubOk s = (s, [], NavStatus.alreadyFirst) ∧
    goto_slide pubOk k s = (s, [], NavStatus.invalidSlideNumber 0) := by
  refine ⟨?_, ?_, ?_⟩
  · unfold next_slide
    rw [if_neg (by omega)]
  · unfold previous_slide
    rw [if_neg (by omega)]
  · rw [show (0 : Int) = s.total_slides from htot.symm]
    exact goto_slide_invalid pubOk k s (by omega)

/-- C10, witness: the sentinel state itself, with jump target 7. -/
theorem c10_no_deck_noop_witness :
    next_slide true sentinelState = (sentinelState, [], NavStatus.alreadyLast) ∧
    previous_slide true sentinelState = (sentinelState, [], NavStatus.alreadyFirst) ∧
    goto_slide true 7 sentinelState = (sentinelState, [], NavStatus.invalidSlideNumber 0) :=
  c10_no_deck_noop true 7 sentinelState (by decide) (by decide)

/-! ## Driver-loop step lemmas -/

/-- One loop iteration on a slide with no image: log-and-skip, direct
increment, no narration events for the slide. -/
theorem driverLoop_step_noImage (oracle : Int → IterOracle) (s : AgentState)
    (fuel : Nat) (slide : Slide)
    (hguard : s.current_slide_index < s.total_slides)
    (hget : pyGet s.slides_data s.current_slide_index = some slide)
    (himg : slide.image_url = "") :
    driverLoopAux oracle s (fuel + 1) =
      ⟨(driverLoopAux oracle (driverAdvanceStep s) fuel).state,
       Event.skipNoImage s.current_slide_index ::
         (driverLoopAux oracle (driverAdvanceStep s) fuel).events,
       (driverLoopAux oracle (driverAdvanceStep s) fuel).ok⟩ := by
  simp only [driverLoopAux, hget]
  rw [if_pos hguard, if_pos himg]

/-- One loop iteration whose in-loop `set_attributes` fails: the error
is caught and logged, the slide's narration is skipped, and the cursor
is incremented directly. -/
theorem driverLoop_step_publishFail (oracle : Int → IterOracle) (s : AgentState)
    (fuel : Nat) (slide : Slide)
    (hguard : s.current_slide_index < s.total_slides)
    (hget : pyGet s.slides_data s.current_slide_index = some slide)
    (himg : slide.image_url ≠ "")
    (hpub : (oracle s.current_slide_index).publishOk = false) :
    driverLoopAux oracle s (fuel + 1) =
      ⟨(driverLoopAux oracle (driverAdvanceStep s) fuel).state,
       Event.displayAttempt slide.image_url slide.slide_number s.total_slides ::
         Event.publishFailSkip s.current_slide_index ::
         (driverLoopAux oracle (driverAdvanceStep s) fuel).events,
       (driverLoopAux oracle (driverAdvanceStep s) fuel).ok⟩ := by
  simp only [driverLoopAux, hget, hpub]
  rw [if_pos hguard, if_neg himg]
  simp

/-- The retry loop when the first attempt completes: a single
narration act carrying the handle's interrupted flag. -/
theorem retryLoop_first_success (idx : Int) (att : Nat → AttemptOutcome)
    (intr : Bool) (h : att 0 = AttemptOutcome.completes intr) (r : Nat) (hr : 1 ≤ r) :
    retryLoop idx att 0 r = ([Event.narrationAct idx 0], RetryResult.success intr) := by
  match r, hr with
  | n + 1, _ =>
    simp only [retryLoop, h]

/-- Count bookkeeping for traces. -/
theorem countNarrationActs_cons_narr (i : Int) (a : Nat) (l : List Event) :
    countNarrationActs (Event.narrationAct i a :: l) = countNarrationActs l + 1 := by
  simp [countNarrationActs, List.countP_cons]

theorem countNarrationActs_cons_backoff (i : Int) (a : Nat) (l : List Event) :
    countNarrationActs (Event.backoffSleep i a :: l) = countNarrationActs l := by
  simp [countNarrationActs, List.countP_cons]

theorem countBackoffs_cons_narr (i : Int) (a : Nat) (l : List Event) :
    countBackoffs (Event.narrationAct i a :: l) = countBackoffs l := by
  simp [countBackoffs, List.countP_cons]

theorem countBackoffs_cons_backoff (i : Int) (a : Nat) (l : List Event) :
    countBackoffs (Event.backoffSleep i a :: l) = countBackoffs l + 1 := by
  simp [countBackoffs, List.countP_cons]

/-- The retry loop when every attempt fails: it raises after exactly
`r` narration attempts with `r - 1` backoff sleeps between them. -/
theorem retryLoop_all_fail (idx : Int) (att : Nat → AttemptOutcome)
    (hf : ∀ n, att n = AttemptOutcome.fails) :
    ∀ r : Nat, 1 ≤ r → ∀ attempt : Nat,
      (retryLoop idx att attempt r).2 = RetryResult.raised ∧
      countNarrationActs (retryLoop idx att attempt r).1 = r ∧
      countBackoffs (retryLoop idx att attempt r).1 = r - 1 := by
  intro r
  induction r with
  | zero => omega
  | succ m ih =>
    intro _ attempt
    by_cases hm : m = 0
    · subst hm
      refine ⟨?_, ?_, ?_⟩ <;>
        simp [retryLoop, hf attempt, countNarrationActs, countBackoffs]
    · have h1m : 1 ≤ m := by omega
      obtain ⟨ha, hb, hc⟩ := ih h1m (attempt + 1)
      simp only [retryLoop, hf attempt, if_neg hm]
      refine ⟨ha, ?_, ?_⟩
      · rw [countNarrationActs_cons_narr, countNarrationActs_cons_backoff, hb]
      · rw [countBackoffs_cons_narr, countBackoffs_cons_backoff, hc]
        omega

/-- One loop iteration whose first narration attempt completes with
the interrupted flag: the loop breaks without touching the cursor. -/
theorem driverLoop_step_interrupted (oracle : Int → IterOracle) (s : AgentState)
    (fuel : Nat) (slide : Slide)
    (hguard : s.current_slide_index < s.total_slides)
    (hget : pyGet s.slides_data s.current_slide_index = some slide)
    (himg : slide.image_url ≠ "")
    (hpub : (oracle s.current_slide_index).publishOk = true)
    (hatt : (oracle s.current_slide_index).att 0 = AttemptOutcome.completes true) :
    driverLoopAux oracle s (fuel + 1) =
      ⟨s, [Event.displayAttempt slide.image_url slide.slide_number s.total_slides,
           Event.narrationAct s.current_slide_index 0,
           Event.interruptedStop s.current_slide_index], true⟩ := by
  simp only [driverLoopAux, hget, hpub]
  rw [if_pos hguard, if_neg himg]
  rw [retryLoop_first_success s.current_slide_index (oracle s.current_slide_index).att
    true hatt max_retries (by decide)]
  simp

/-- One loop iteration whose every narration attempt fails: the final
attempt re-raises, the outer handler catches it, and the cursor is
incremented directly (skip-and-continue). -/
theorem driverLoop_step_allFail (oracle : Int → IterOracle) (s : AgentState)
    (fuel : Nat) (slide : Slide)
    (hguard : s.current_slide_index < s.total_slides)
    (hget : pyGet s.slides_data s.current_slide_index = some slide)
    (himg : slide.image_url ≠ "")
    (hpub : (oracle s.current_slide_index).publishOk = true)
    (hfail : ∀ n, (oracle s.current_slide_index).att n = AttemptOutcome.fails) :
    driverLoopAux oracle s (fuel + 1) =
      ⟨(driverLoopAux oracle (driverAdvanceStep s) fuel).state,
       Event.displayAttempt slide.image_url slide.slide_number s.total_slides ::
         (retryLoop s.current_slide_index (oracle s.current_slide_index).att 0 max_retries).1 ++
         Event.slideFailedSkip s.current_slide_index ::
         (driverLoopAux oracle (driverAdvanceStep s) fuel).events,
       (driverLoopAux oracle (driverAdvanceStep s) fuel).ok⟩ := by
  have hraised := (retryLoop_all_fail s.current_slide_index
    (oracle s.current_slide_index).att hfail max_retries (by decide) 0).1
  simp only [driverLoopAux, hget, hpub]
  rw [if_pos hguard, if_neg himg]
  simp only [hraised]
  simp

/-- More count bookkeeping. -/
theorem countNarrationActs_cons_display (u : String) (o t : Int) (l : List Event) :
    countNarrationActs (Event.displayAttempt u o t :: l) = countNarrationActs l := by
  simp [countNarrationActs, List.countP_cons]

theorem countNarrationActs_cons_skip (i : Int) (l : List Event) :
    countNarrationActs (Event.skipNoImage i :: l) = countNarrationActs l := by
  simp [countNarrationActs, List.countP_cons]

theorem countNarrationActs_cons_pubfail (i : Int) (l : List Event) :
    countNarrationActs (Event.publishFailSkip i :: l) = countNarrationActs l := by
  simp [countNarrationActs, List.countP_cons]

theorem countNarrationActs_cons_failedSkip (i : Int) (l : List Event) :
    countNarrationActs (Event.slideFailedSkip i :: l) = countNarrationActs l := by
  simp [countNarrationActs, List.countP_cons]

theorem countNarrationActs_append (l1 l2 : List Event) :
    countNarrationActs (l1 ++ l2) = countNarrationActs l1 + countNarrationActs l2 := by
  simp [countNarrationActs, List.countP_append]

/-- The attempted display publication of `update_slide_display` does
not depend on whether the external `set_attributes` call succeeds: the
`try/except` confines the failure. -/
theorem update_calls_indep (p1 p2 : Bool) (s : AgentState) :
    (update_slide_display p1 s).1 = (update_slide_display p2 s).1 := by
  unfold update_slide_display
  cases s.room_context <;> cases pyGet s.slides_data s.current_slide_index <;>
    cases p1 <;> cases p2 <;> rfl

/-- C2: if the narration act for the current slide completes with the
interrupted flag set, the Driver breaks out of the automatic loop
without incrementing the position: the cursor remains at the same
index, the loop emits the interruption stop and nothing after it, and
the navigation commands remain callable on the resulting state (a
valid jump still lands on the requested slide). -/
theorem c2_interrupt_halts (oracle : Int → IterOracle) (s : AgentState)
    (fuel : Nat) (slide : Slide)
    (hguard : s.current_slide_index < s.total_slides)
    (hget : pyGet s.slides_data s.current_slide_index = some slide)
    (himg : slide.image_url ≠ "")
    (hpub : (oracle s.current_slide_index).publishOk = true)
    (hint : (retryLoop s.current_slide_index (oracle s.current_slide_index).att 0 max_retries).2
      = RetryResult.success true) :
    (driverLoopAux oracle s (fuel + 1)).state = s ∧
    (driverLoopAux oracle s (fuel + 1)).events =
      Event.displayAttempt slide.image_url slide.slide_number s.total_slides ::
        (retryLoop s.current_slide_index (oracle s.current_slide_index).att 0 max_retries).1 ++
        [Event.interruptedStop s.current_slide_index] ∧
    (driverLoopAux oracle s (fuel + 1)).ok = true ∧
    (∀ k : Int, 1 ≤ k → k ≤ s.total_slides →
      ((goto_slide true k (driverLoopAux oracle s (fuel + 1)).state).1).current_slide_index
        = k - 1) := by
  have h : driverLoopAux oracle s (fuel + 1) =
      ⟨s, Event.displayAttempt slide.image_url slide.slide_number s.total_slides ::
            (retryLoop s.current_slide_index (oracle s.current_slide_index).att 0 max_retries).1 ++
            [Event.interruptedStop s.current_slide_index], true⟩ := by
    simp only [driverLoopAux, hget, hpub]
    rw [if_pos hguard, if_neg himg]
    simp only [hint]
    simp
  refine ⟨by rw [h], by rw [h], by rw [h], ?_⟩
  intro k hk1 hk2
  rw [h]
  rw [goto_slide_valid true k s hk1 hk2]

/-- C2, witness: one-slide deck, narration interrupted at index 0; the
cursor stays at 0 and jump(1) still works. -/
theorem c2_interrupt_halts_witness :
    (driverLoopAux interruptOracle (initState deck1) 1).state = initState deck1 ∧
    (driverLoopAux interruptOracle (initState deck1) 1).events =
      Event.displayAttempt "u1" 1 1 ::
        (retryLoop 0 (interruptOracle 0).att 0 max_retries).1 ++ [Event.interruptedStop 0] ∧
    (driverLoopAux interruptOracle (initState deck1) 1).ok = true ∧
    ((goto_slide true 1 (driverLoopAux interruptOracle (initState deck1) 1).state).1).current_slide_index = 0 :=
  have h := c2_interrupt_halts interruptOracle (initState deck1) 0 (mkSlide 1 "u1" "t1")
    (by decide) (by decide) (by decide) rfl (by decide)
  ⟨h.1, h.2.1, h.2.2.1, h.2.2.2 1 (by decide) (by decide)⟩

/-- C3, counterexample: the code makes exactly `max_retries` (= 3 in
agent.py, from `for attempt in range(max_retries)`) narration attempts
for a slide whose narration always fails — not `1 + max_retries`.  On
the one-slide deck with an always-failing narration channel, the run
performs 3 attempts, not 4. -/
theorem c3_counterexample :
    countNarrationActs (retryLoop 0 (failingOracle 0).att 0 max_retries).1 = 3 ∧
    countNarrationActs (retryLoop 0 (failingOracle 0).att 0 max_retries).1 ≠ 1 + max_retries ∧
    narrationActsFor 0 (driverLoopAux failingOracle (initState deck1) 2).events = 3 := by
  decide

/-- C3, amended: a slide whose narration always fails is attempted
exactly `max_retries` times (3 in agent.py; agent_temp.py sets 2),
with a backoff sleep between consecutive attempts (`max_retries - 1`
sleeps); the final attempt re-raises, the outer handler catches it,
and the Driver advances past the slide and continues with the rest of
the deck rather than aborting (concretely: on a two-slide deck with
narration always failing, both slides get exactly 3 attempts, the
cursor ends past the deck, and the session still reaches Q&A). -/
theorem c3_amended :
    (∀ (att : Nat → AttemptOutcome), (∀ n, att n = AttemptOutcome.fails) →
      ∀ (idx : Int) (r : Nat), 1 ≤ r →
        (retryLoop idx att 0 r).2 = RetryResult.raised ∧
        countNarrationActs (retryLoop idx att 0 r).1 = r ∧
        countBackoffs (retryLoop idx att 0 r).1 = r - 1) ∧
    max_retries = 3 ∧
    (∀ (oracle : Int → IterOracle) (s : AgentState) (fuel : Nat) (slide : Slide),
      s.current_slide_index < s.total_slides →
      pyGet s.slides_data s.current_slide_index = some slide →
      slide.image_url ≠ "" →
      (oracle s.current_slide_index).publishOk = true →
      (∀ n, (oracle s.current_slide_index).att n = AttemptOutcome.fails) →
      (driverLoopAux oracle s (fuel + 1)).state =
        (driverLoopAux oracle (driverAdvanceStep s) fuel).state ∧
      countNarrationActs (driverLoopAux oracle s (fuel + 1)).events =
        max_retries + countNarrationActs (driverLoopAux oracle (driverAdvanceStep s) fuel).events) ∧
    (runPresentation failingOracle 10 (initState deck2)).1.current_slide_index = 2 ∧
    narrationActsFor 0 (runPresentation failingOracle 10 (initState deck2)).2.1 = 3 ∧
    narrationActsFor 1 (runPresentation failingOracle 10 (initState deck2)).2.1 = 3 ∧
    (runPresentation failingOracle 10 (initState deck2)).2.2 = Phase.idleQA := by
  refine ⟨?_, rfl, ?_, by decide, by decide, by decide, by decide⟩
  · intro att hf idx r hr
    exact retryLoop_all_fail idx att hf r hr 0
  · intro oracle s fuel slide hguard hget himg hpub hfail
    have h := driverLoop_step_allFail oracle s fuel slide hguard hget himg hpub hfail
    rw [h]
    refine ⟨rfl, ?_⟩
    have hcnt := (retryLoop_all_fail s.current_slide_index
      (oracle s.current_slide_index).att hfail max_retries (by decide) 0).2.1
    simp only [countNarrationActs_cons_display, countNarrationActs_append,
      countNarrationActs_cons_failedSkip, hcnt]

/-- C3 amended, witness: the always-failing narration channel on the
one-slide deck, 3 attempts and 2 backoffs. -/
theorem c3_amended_witness :
    ((retryLoop 0 (fun _ => AttemptOutcome.fails) 0 3).2 = RetryResult.raised ∧
      countNarrationActs (retryLoop 0 (fun _ => AttemptOutcome.fails) 0 3).1 = 3 ∧
      countBackoffs (retryLoop 0 (fun _ => AttemptOutcome.fails) 0 3).1 = 2) ∧
    (driverLoopAux failingOracle (initState deck1) 2).state =
      (driverLoopAux failingOracle (driverAdvanceStep (initState deck1)) 1).state ∧
    countNarrationActs (driverLoopAux failingOracle (initState deck1) 2).events =
      max_retries +
        countNarrationActs (driverLoopAux failingOracle (driverAdvanceStep (initState deck1)) 1).events :=
  ⟨c3_amended.1 (fun _ => AttemptOutcome.fails) (fun _ => rfl) 0 3 (by decide),
   c3_amended.2.2.1 failingOracle (initState deck1) 1 (mkSlide 1 "u1" "t1")
     (by decide) (by decide) (by decide) rfl (fun _ => rfl)⟩

/-- C6, counterexample: in the Driver's loop a failed display publish
does suppress the narration of the current slide.  On the one-slide
deck with the in-loop `set_attributes` failing, the iteration performs
zero narration acts for slide 0 and skips straight past it (the
`except` branch at agent.py lines 263-266 increments and continues
before any narration). -/
theorem c6_counterexample :
    countNarrationActs (driverLoopAux noPublishOracle (initState deck1) 2).events = 0 ∧
    (driverLoopAux noPublishOracle (initState deck1) 2).state.current_slide_index = 1 ∧
    (driverLoopAux noPublishOracle (initState deck1) 2).events =
      [Event.displayAttempt "u1" 1 1, Event.publishFailSkip 0] := by
  decide

/-- C6, amended: every successful navigation mutation (advance,
retreat, jump) attempts a Display Publisher call carrying the new
current slide's url, 1-indexed ordinal, and total; a publish failure
is only logged and never changes what a navigation command returns;
and in the Driver's loop a publish failure likewise does not
propagate — but it causes the Driver to skip that slide's narration
entirely (zero narration acts) and advance past it, rather than
narrating it anyway. -/
theorem c6_amended :
    (∀ (pub : Bool) (s : AgentState) (sl : Slide),
      s.room_context = some () →
      s.current_slide_index < s.total_slides - 1 →
      pyGet s.slides_data (s.current_slide_index + 1) = some sl →
      (next_slide pub s).2.1 =
        [⟨sl.image_url, s.current_slide_index + 1 + 1, s.total_slides⟩]) ∧
    (∀ (pub : Bool) (s : AgentState) (sl : Slide),
      s.room_context = some () →
      0 < s.current_slide_index →
      pyGet s.slides_data (s.current_slide_index - 1) = some sl →
      (previous_slide pub s).2.1 =
        [⟨sl.image_url, s.current_slide_index - 1 + 1, s.total_slides⟩]) ∧
    (∀ (pub : Bool) (k : Int) (s : AgentState) (sl : Slide),
      s.room_context = some () →
      1 ≤ k → k ≤ s.total_slides →
      pyGet s.slides_data (k - 1) = some sl →
      (goto_slide pub k s).2.1 = [⟨sl.image_url, k - 1 + 1, s.total_slides⟩]) ∧
    (∀ (p1 p2 : Bool) (k : Int) (s : AgentState),
      next_slide p1 s = next_slide p2 s ∧
      previous_slide p1 s = previous_slide p2 s ∧
      goto_slide p1 k s = goto_slide p2 k s) ∧
    (∀ (oracle : Int → IterOracle) (s : AgentState) (fuel : Nat) (slide : Slide),
      s.current_slide_index < s.total_slides →
      pyGet s.slides_data s.current_slide_index = some slide →
      slide.image_url ≠ "" →
      (oracle s.current_slide_index).publishOk = false →
      (driverLoopAux oracle s (fuel + 1)).state =
        (driverLoopAux oracle (driverAdvanceStep s) fuel).state ∧
      (driverLoopAux oracle s (fuel + 1)).ok =
        (driverLoopAux oracle (driverAdvanceStep s) fuel).ok ∧
      countNarrationActs (driverLoopAux oracle s (fuel + 1)).events =
        countNarrationActs (driverLoopAux oracle (driverAdvanceStep s) fuel).events) := by
  refine ⟨?_, ?_, ?_, ?_, ?_⟩
  · intro pub s sl hroom hlt hsl
    simp only [next_slide]
    rw [if_pos hlt]
    simp only [update_slide_display, hroom, hsl]
    cases pub <;> rfl
  · intro pub s sl hroom hgt hsl
    simp only [previous_slide]
    rw [if_pos hgt]
    simp only [update_slide_display, hroom, hsl]
    cases pub <;> rfl
  · intro pub k s sl hroom hk1 hk2 hsl
    simp only [goto_slide]
    rw [if_pos ⟨hk1, hk2⟩]
    simp only [update_slide_display, hroom, hsl]
    cases pub <;> rfl
  · intro p1 p2 k s
    refine ⟨?_, ?_, ?_⟩
    · simp only [next_slide]
      split
      · rw [update_calls_indep p1 p2]
      · rfl
    · simp only [previous_slide]
      split
      · rw [update_calls_indep p1 p2]
      · rfl
    · simp only [goto_slide]
      split
      · rw [update_calls_indep p1 p2]
      · rfl
  · intro oracle s fuel slide hguard hget himg hpub
    have h := driverLoop_step_publishFail oracle s fuel slide hguard hget himg hpub
    rw [h]
    refine ⟨rfl, rfl, ?_⟩
    rw [countNarrationActs_cons_display, countNarrationActs_cons_pubfail]

/-- C6 amended, witness: concrete publish payloads on the two-slide
deck, publish-outcome independence at a concrete state, and the
publish-fail skip on the one-slide deck. -/
theorem c6_amended_witness :
    (next_slide true (initState deck2)).2.1 = [⟨"u2", 2, 2⟩] ∧
    (previous_slide true (⟨1, 2, deck2, some ()⟩ : AgentState)).2.1 = [⟨"u1", 1, 2⟩] ∧
    (goto_slide true 2 (initState deck2)).2.1 = [⟨"u2", 2, 2⟩] ∧
    next_slide true (initState deck2) = next_slide false (initState deck2) ∧
    (driverLoopAux noPublishOracle (initState deck1) 2).state =
      (driverLoopAux noPublishOracle (driverAdvanceStep (initState deck1)) 1).state ∧
    countNarrationActs (driverLoopAux noPublishOracle (initState deck1) 2).events =
      countNarrationActs (driverLoopAux noPublishOracle (driverAdvanceStep (initState deck1)) 1).events :=
  have h5 := c6_amended.2.2.2.2 noPublishOracle (initState deck1) 1 (mkSlide 1 "u1" "t1")
    (by decide) (by decide) (by decide) rfl
  ⟨c6_amended.1 true (initState deck2) (mkSlide 2 "u2" "t2") rfl (by decide) (by decide),
   c6_amended.2.1 true ⟨1, 2, deck2, some ()⟩ (mkSlide 1 "u1" "t1") rfl (by decide) (by decide),
   c6_amended.2.2.1 true 2 (initState deck2) (mkSlide 2 "u2" "t2") rfl (by decide) (by decide) (by decide),
   (c6_amended.2.2.2.1 true false 1 (initState deck2)).1,
   h5.1, h5.2.2⟩

/-- C7, counterexample: on the five-slide deck, if `jump(4)` lands
while slide 1 is narrating (cursor 0 → 3) and the narration then
completes uninterrupted, the driver's advance step (`+= 1` on the
current cursor) leaves the cursor at index 4, not 3, and the next
iteration narrates slide 5 (index 4), not slide 4. -/
theorem c7_counterexample :
    (driverAdvanceStep (goto_slide true 4 (initState deck5)).1).current_slide_index = 4 ∧
    (driverAdvanceStep (goto_slide true 4 (initState deck5)).1).current_slide_index ≠ 3 ∧
    firstNarratedIndex
        (driverLoopAux happyOracle
          (driverAdvanceStep (goto_slide true 4 (initState deck5)).1) 10).events
      = some 4 := by
  decide

/-- C7, amended: the driver's post-slide increment is applied to
whatever cursor value the jump left behind.  A `jump(4)` that lands
during slide 1's narration is followed by the increment, so the next
iteration observes index 4 and narrates slide 5; the spec's outcome —
index 3, slide 4 — occurs only when the jump lands after the driver's
increment. -/
theorem c7_amended :
    (driverAdvanceStep (goto_slide true 4 (initState deck5)).1).current_slide_index = 4 ∧
    firstNarratedIndex
        (driverLoopAux happyOracle
          (driverAdvanceStep (goto_slide true 4 (initState deck5)).1) 10).events
      = some 4 ∧
    (goto_slide true 4 (driverAdvanceStep (initState deck5))).1.current_slide_index = 3 ∧
    firstNarratedIndex
        (driverLoopAux happyOracle
          (goto_slide true 4 (driverAdvanceStep (initState deck5))).1 10).events
      = some 3 := by
  decide

/-- C8: a slide with no display reference gets zero narration attempts
and is skipped with a direct advance; concretely, on the three-slide
deck whose slide 2 lacks an image url, the run narrates slide 1 (index
0), emits no narration act for slide 2 (index 1), narrates slide 3
(index 2), then emits exactly one closing narration and transitions to
the idle Q&A phase. -/
theorem c8_skip_no_display :
    (∀ (oracle : Int → IterOracle) (s : AgentState) (fuel : Nat) (slide : Slide),
      s.current_slide_index < s.total_slides →
      pyGet s.slides_data s.current_slide_index = some slide →
      slide.image_url = "" →
      (driverLoopAux oracle s (fuel + 1)).state =
        (driverLoopAux oracle (driverAdvanceStep s) fuel).state ∧
      countNarrationActs (driverLoopAux oracle s (fuel + 1)).events =
        countNarrationActs (driverLoopAux oracle (driverAdvanceStep s) fuel).events) ∧
    runPresentation happyOracle 10 (initState deck3gap) =
      (⟨3, 3, deck3gap, some ()⟩,
       [Event.displayAttempt "u1" 1 3, Event.narrationAct 0 0, Event.slideCompleted 0,
        Event.skipNoImage 1,
        Event.displayAttempt "u3" 3 3, Event.narrationAct 2 0, Event.slideCompleted 2,
        Event.closingNarration],
       Phase.idleQA) ∧
    narrationActsFor 1 (runPresentation happyOracle 10 (initState deck3gap)).2.1 = 0 ∧
    countClosing (runPresentation happyOracle 10 (initState deck3gap)).2.1 = 1 := by
  refine ⟨?_, by decide, by decide, by decide⟩
  intro oracle s fuel slide hguard hget himg
  have h := driverLoop_step_noImage oracle s fuel slide hguard hget himg
  rw [h]
  exact ⟨rfl, by rw [countNarrationActs_cons_skip]⟩

/-- C8, witness: the skip step at index 1 of the gapped deck. -/
theorem c8_skip_no_display_witness :
    (driverLoopAux happyOracle (⟨1, 3, deck3gap, some ()⟩ : AgentState) 6).state =
      (driverLoopAux happyOracle (driverAdvanceStep ⟨1, 3, deck3gap, some ()⟩) 5).state ∧
    countNarrationActs (driverLoopAux happyOracle (⟨1, 3, deck3gap, some ()⟩ : AgentState) 6).events =
      countNarrationActs
        (driverLoopAux happyOracle (driverAdvanceStep ⟨1, 3, deck3gap, some ()⟩) 5).events :=
  c8_skip_no_display.1 happyOracle ⟨1, 3, deck3gap, some ()⟩ 5 (mkSlide 2 "" "t2")
    (by decide) (by decide) rfl
